import Mathlib

/-!
Shallow embedding of the CR95HF RFID driver (drivers/rfid/rfid_cr95hf.c) and of
the RFID driver API header (include/zephyr/drivers/rfid.h).

Modelling conventions:
* The SPI bus primitive is an oracle `Spi : Nat → SpiRes`, consulted once per
  bus-primitive invocation (`spi_transceive_dt` / `spi_write_dt`); the index is
  the running count of bus calls.  A result is either a transport failure
  (negative errno, as in Zephyr) or the byte stream clocked into the receive
  buffer.
* The driver instance state `struct rfid_cr95hf_data`, the caller-visible
  outputs of `rfid_cr95hf_iso14443A_get_uid` (the `uid` buffer and `*uid_len`),
  and pure observation fields (count of bus calls, log of `k_sleep` durations,
  chip-select level, count of IRQ_IN wake pulses, and bookkeeping for failures
  of bus calls made outside of `rfid_cr95hf_wait`) are carried in one record
  `Dev`.  C byte buffers are total functions `Nat → Nat` whose stores reduce
  modulo 256 (`uint8_t`).
* Driver functions become values of `M α := Dev → Except Int α × Dev`: the C
  `return err` paths are `Except.error`, and the mutations performed before an
  error return persist in the final state, exactly as in C.
* The unbounded polling loop of `rfid_cr95hf_polling` takes explicit fuel; fuel
  exhaustion yields the sentinel error -1000, which no C path produces (the C
  loop simply never returns in that situation).
* `k_sleep` durations are logged in microseconds and advance the monotonic
  clock; `k_uptime_get` is the clock in milliseconds, as in Zephyr.
-/

/-! ## Operating modes and protocols (include/zephyr/drivers/rfid.h) -/

/-- `rfid_mode_t` value `UNINITIALIZED`. -/
def UNINITIALIZED : Nat := 0

/-- `rfid_mode_t` value `POWER_UP`. -/
def POWER_UP : Nat := 1

/-- `rfid_mode_t` value `READY`. -/
def READY : Nat := 2

/-- `rfid_mode_t` value `HIBERNATE`. -/
def HIBERNATE : Nat := 3

/-- `rfid_mode_t` value `SLEEP`. -/
def SLEEP : Nat := 4

/-- `rfid_mode_t` value `TAG_DETECTOR`. -/
def TAG_DETECTOR : Nat := 5

/-- `rfid_mode_t` value `READER`. -/
def READER : Nat := 6

/-- `rfid_mode_t` value `INVALID`. -/
def INVALID : Nat := 7

/-- `rfid_protocol_t` value `ISO_14443A`. -/
def ISO_14443A : Nat := 2

/-- Modelled from the spec: the receive-buffer capacity `CR95HF_RCV_BUF_SIZE`
is defined in `rfid_cr95hf.h`, which is not among the provided sources; the
spec only states that the buffer has a fixed capacity and that an oversized
declared response length is silently clipped to it.  Every response exercised
by the claims is at most 5 bytes, so the exact value is immaterial to them. -/
def CR95HF_RCV_BUF_SIZE : Nat := 255

/-! ## Device state -/

/-- The driver-instance state (`struct rfid_cr95hf_data`), the configuration
bit that selects the readiness strategy (`config->irq_out != NULL`), the
caller-owned outputs of `get_uid`, and pure observation fields. -/
structure Dev : Type where
  /-- `data->current_mode` (`rfid_mode_t` as a C integer). -/
  current_mode : Nat
  /-- `data->cm_timestamp`: `k_uptime_get()` (ms) at the last mode change. -/
  cm_timestamp : Nat
  /-- Monotonic clock, microseconds; `k_uptime_get()` is `now_us / 1000`. -/
  now_us : Nat
  /-- Configuration: `config->irq_out != NULL` (signal strategy available). -/
  hasIrqOut : Bool
  /-- `data->tag_detector_msg` (17 configured bytes). -/
  tag_detector_msg : Nat → Nat
  /-- `data->protocol_msg` (configured bytes). -/
  protocol_msg : Nat → Nat
  /-- `data->protocol_msg_len` (7 for ISO 14443A at configuration time). -/
  protocol_msg_len : Nat
  /-- `data->snd_buffer`. -/
  snd : Nat → Nat
  /-- `data->rcv_buffer`. -/
  rcv : Nat → Nat
  /-- `data->spi_snd_buffer.len`. -/
  sndLen : Nat
  /-- `data->spi_rcv_buffer.len`. -/
  rcvLen : Nat
  /-- Chip-select line: `true` when asserted (`gpio_pin_set_dt(cs, 1)`). -/
  cs : Bool
  /-- Observation: number of bus-primitive invocations so far. -/
  nBus : Nat
  /-- Observation: chronological log of `k_sleep` durations in microseconds. -/
  sleeps : List Nat
  /-- Observation: number of IRQ_IN wake pulses issued by `select_mode`. -/
  wakePulses : Nat
  /-- Ghost: `true` while executing inside `rfid_cr95hf_wait`. -/
  inWait : Bool
  /-- Ghost: the first bus-primitive failure that occurred outside
  `rfid_cr95hf_wait`, if any. -/
  foW : Option Int
  /-- Caller memory: the `uid` output buffer of `get_uid`. -/
  uid : Nat → Nat
  /-- Caller memory: the `*uid_len` variable of `get_uid`. -/
  uid_len : Nat

/-! ## The driver computation monad -/

/-- A driver computation: the C functions return `int` (0 or a negative errno)
and mutate the device state; mutations made before an error return persist. -/
def M (α : Type) : Type := Dev → Except Int α × Dev

/-- `pure` for `M`. -/
def mret {α : Type} (a : α) : M α := fun d => (Except.ok a, d)

/-- `bind` for `M`: short-circuits on `return err` like the C code. -/
def mbind {α β : Type} (x : M α) (f : α → M β) : M β := fun d =>
  match x d with
  | (Except.ok a, d1) => f a d1
  | (Except.error e, d1) => (Except.error e, d1)

instance : Monad M where
  pure := mret
  bind := mbind

/-- Read the device state. -/
def mget : M Dev := fun d => (Except.ok d, d)

/-- Mutate the device state. -/
def mmod (g : Dev → Dev) : M Unit := fun d => (Except.ok (), g d)

/-- `return e` with a negative errno. -/
def mthrow {α : Type} (e : Int) : M α := fun d => (Except.error e, d)

/-! ## Kernel and bus primitives -/

/-- `k_sleep`, logged in microseconds, advancing the monotonic clock. -/
def k_sleep (us : Nat) : M Unit :=
  mmod fun d => { d with sleeps := d.sleeps ++ [us], now_us := d.now_us + us }

/-- Outcome of one bus-primitive invocation. -/
inductive SpiRes : Type where
  | fail (e : Int)
  | ok (bytes : Nat → Nat)

/-- The bus oracle: outcome of the k-th bus-primitive invocation. -/
abbrev Spi : Type := Nat → SpiRes

/-- One bus-primitive invocation (`spi_transceive_dt` / `spi_write_dt`):
clocks `readLen` bytes into the receive buffer on success (0 for a pure
write), or fails with the oracle's errno.  `uint8_t` storage reduces the
received bytes modulo 256. -/
def spi_xfer (spi : Spi) (readLen : Nat) : M Unit := fun d =>
  match spi d.nBus with
  | SpiRes.fail e =>
      (Except.error e,
        { d with nBus := d.nBus + 1,
                 foW := if d.inWait then d.foW else some (d.foW.getD e) })
  | SpiRes.ok bytes =>
      (Except.ok (),
        { d with nBus := d.nBus + 1,
                 rcv := fun i => if i < readLen then bytes i % 256 else d.rcv i })

/-- Byte store into a `uint8_t` buffer. -/
def upd8 (f : Nat → Nat) (i v : Nat) : Nat → Nat :=
  fun j => if j = i then v % 256 else f j

/-- Store a list of bytes at the start of a `uint8_t` buffer (the C code's
sequence of `data->snd_buffer[k] = ...` assignments). -/
def storeList (f : Nat → Nat) (l : List Nat) : Nat → Nat :=
  fun j => if j < l.length then l.getD j 0 % 256 else f j

/-! ## Driver functions (rfid_cr95hf.c) -/

/-- `rfid_cr95hf_setmode` (line 58): set the mode and record `k_uptime_get()`. -/
def rfid_cr95hf_setmode (mode : Nat) : M Unit :=
  mmod fun d => { d with current_mode := mode, cm_timestamp := d.now_us / 1000 }

/-- `rfid_cr95hf_transceive` (line 110): assert CS, settle 1 ms, then exchange /
write / read / nothing according to the buffer lengths; on success optionally
release CS after a settle delay, then a final settle delay.  A bus failure
returns immediately: no CS release, no further delays. -/
def rfid_cr95hf_transceive (spi : Spi) (release_cs : Bool) : M Unit :=
  mmod (fun d => { d with cs := true }) >>= fun _ =>
  k_sleep 1000 >>= fun _ =>
  mget >>= fun d =>
  (if d.sndLen > 0 ∧ d.rcvLen > 0 then
    spi_xfer spi d.rcvLen
  else if d.sndLen > 0 then
    spi_xfer spi 0
  else if d.rcvLen > 0 then
    spi_xfer spi d.rcvLen
  else
    pure ()) >>= fun _ =>
  (if release_cs then
    k_sleep 1000 >>= fun _ =>
    mmod fun d => { d with cs := false }
  else
    pure ()) >>= fun _ =>
  k_sleep 1000

/-- The flag-reading loop of `rfid_cr95hf_polling` (lines 328-344), with
explicit fuel replacing the unbounded `while (1)`.  Written with a bare
`Nat.rec` so that concrete runs reduce cheaply in the kernel. -/
def pollLoop (spi : Spi) (ready_read ready_send : Bool) : Nat → M Unit :=
  Nat.rec (mthrow (-1000))
    (fun _ ih =>
      mmod (fun d => { d with rcv := upd8 d.rcv 0 0 }) >>= fun _ =>
      rfid_cr95hf_transceive spi true >>= fun _ =>
      mget >>= fun d =>
      if ready_read = true ∧ Nat.land (d.rcv 0) 8 ≠ 0 then
        pure ()
      else if ready_send = true ∧ Nat.land (d.rcv 0) 4 ≠ 0 then
        pure ()
      else
        ih)

/-- `rfid_cr95hf_polling` (line 307): send the poll control byte 0x03, then
read single status bytes until a requested ready bit (0x8 read / 0x4 send) is
set.  Transport failures return their errno immediately. -/
def rfid_cr95hf_polling (spi : Spi) (fuel : Nat) (ready_read ready_send : Bool) :
    M Unit :=
  mmod (fun d => { d with snd := upd8 d.snd 0 3, sndLen := 1, rcvLen := 0 }) >>= fun _ =>
  rfid_cr95hf_transceive spi true >>= fun _ =>
  mmod (fun d => { d with sndLen := 0, rcvLen := 1 }) >>= fun _ =>
  pollLoop spi ready_read ready_send fuel

/-- `rfid_cr95hf_wait` (line 356): block until the chip is ready.  Without an
IRQ_OUT line it calls `rfid_cr95hf_polling(dev, 1, 1)` and DISCARDS its return
value (the function is `void`); with IRQ_OUT it blocks on the semaphore, which
involves no bus activity.  The `inWait` ghost flag brackets the polling call so
that bus failures occurring inside it can be told apart. -/
def rfid_cr95hf_wait (spi : Spi) (fuel : Nat) : M Unit := fun d =>
  if d.hasIrqOut then
    (Except.ok (), d)
  else
    match rfid_cr95hf_polling spi fuel true true { d with inWait := true } with
    | (_, d1) => (Except.ok (), { d1 with inWait := false })

/-- `rfid_cr95hf_response` (line 384): send read-control byte 0x02 while
clocking in 3 header bytes (dummy, response code, declared length); clip the
declared length to the receive-buffer capacity; then read that many payload
bytes, releasing CS. -/
def rfid_cr95hf_response (spi : Spi) : M Unit :=
  mmod (fun d => { d with snd := upd8 d.snd 0 2, sndLen := 1, rcvLen := 3 }) >>= fun _ =>
  rfid_cr95hf_transceive spi false >>= fun _ =>
  mget >>= fun d =>
  mmod (fun d2 => { d2 with sndLen := 0,
                            rcvLen := min (d.rcv 2) CR95HF_RCV_BUF_SIZE }) >>= fun _ =>
  rfid_cr95hf_transceive spi true

/-- `rfid_cr95hf_select_mode` (line 440).  Note three faithful quirks of the C
code: the settle-wait guard compares the absolute timestamp `cm_timestamp`
against 10 (line 459), not the elapsed time; a READER current mode only logs
"Leaving READER state is not implemented, yet" and falls through (lines
465-468); unsupported requested modes return -EINVAL (-22). -/
def rfid_cr95hf_select_mode (spi : Spi) (fuel : Nat) (req_mode : Nat) :
    M Unit :=
  mget >>= fun d0 =>
  if req_mode = d0.current_mode then
    pure ()
  else if req_mode ≥ INVALID then
    mthrow (-22)
  else
    (if d0.cm_timestamp < 10 then
      k_sleep ((10 - d0.cm_timestamp) * 1000)
    else
      pure ()) >>= fun _ =>
    (if d0.current_mode ≠ READY then
      if d0.current_mode = READER then
        pure ()
      else
        mmod (fun d => { d with wakePulses := d.wakePulses + 1 }) >>= fun _ =>
        k_sleep 10 >>= fun _ =>
        rfid_cr95hf_setmode READY
    else
      pure ()) >>= fun _ =>
    k_sleep 10000 >>= fun _ =>
    (if req_mode = TAG_DETECTOR then
      mmod (fun d => { d with
        snd := fun i => if i < 17 then d.tag_detector_msg i % 256 else d.snd i,
        sndLen := 17, rcvLen := 0 }) >>= fun _ =>
      rfid_cr95hf_transceive spi true >>= fun _ =>
      rfid_cr95hf_setmode TAG_DETECTOR >>= fun _ =>
      rfid_cr95hf_wait spi fuel >>= fun _ =>
      rfid_cr95hf_response spi >>= fun _ =>
      rfid_cr95hf_setmode READY
    else
      mthrow (-22))

/-- One anticollision command phase of `get_uid`: store the command bytes,
transceive (release CS), block until ready, read the response. -/
def cmdPhase (spi : Spi) (fuel : Nat) (mk : Dev → List Nat) : M Unit :=
  mmod (fun d => { d with snd := storeList d.snd (mk d),
                          sndLen := (mk d).length, rcvLen := 0 }) >>= fun _ =>
  rfid_cr95hf_transceive spi true >>= fun _ =>
  rfid_cr95hf_wait spi fuel >>= fun _ =>
  rfid_cr95hf_response spi

/-- UID extraction after the SEL_CL1 response (lines 590-600). -/
def parse_cl1 (d : Dev) : Dev :=
  if d.rcv 0 = 0x88 then
    { d with uid := upd8 (upd8 (upd8 d.uid 0 (d.rcv 1)) 1 (d.rcv 2)) 2 (d.rcv 3) }
  else
    { d with
      uid := upd8 (upd8 (upd8 (upd8 d.uid 0 (d.rcv 0)) 1 (d.rcv 1)) 2 (d.rcv 2))
        3 (d.rcv 3),
      uid_len := 4 }

/-- UID extraction after the SEL_CL2 response (lines 659-671). -/
def parse_cl2 (d : Dev) : Dev :=
  if d.rcv 0 = 0x88 then
    { d with uid := upd8 (upd8 (upd8 d.uid 3 (d.rcv 1)) 4 (d.rcv 2)) 5 (d.rcv 3) }
  else
    { d with
      uid := upd8 (upd8 (upd8 (upd8 d.uid 3 (d.rcv 0)) 4 (d.rcv 1)) 5 (d.rcv 2))
        6 (d.rcv 3),
      uid_len := 7 }

/-- UID extraction after the SEL_CL3 response (lines 727-731). -/
def parse_cl3 (d : Dev) : Dev :=
  { d with
    uid := upd8 (upd8 (upd8 (upd8 d.uid 6 (d.rcv 0)) 7 (d.rcv 1)) 8 (d.rcv 2))
      9 (d.rcv 3),
    uid_len := 10 }

/-- The `9x 70 <echo of rcv[0..4]> 28` cascade-complete command bytes. -/
def sel_complete (c : Nat) (d : Dev) : List Nat :=
  [0x00, 0x04, 0x08, c, 0x70, d.rcv 0, d.rcv 1, d.rcv 2, d.rcv 3, d.rcv 4, 0x28]

/-- Cascade level 3 of `get_uid` (lines 704-760), guarded by the SAK bit 0x04.
Line 759 then reloads `sak_byte` from `snd_buffer[0]`; that value is never
used again, so it is not modelled. -/
def uidLevel3 (spi : Spi) (fuel : Nat) (sak_byte : Nat) : M Unit :=
  if Nat.land sak_byte 4 ≠ 0 then
    cmdPhase spi fuel (fun _ => [0x00, 0x04, 0x03, 0x97, 0x20, 0x08]) >>= fun _ =>
    mmod parse_cl3 >>= fun _ =>
    cmdPhase spi fuel (sel_complete 0x97)
  else
    pure ()

/-- Cascade level 2 of `get_uid` (lines 635-701), guarded by the SAK bit 0x04.
The C code's two sequential `if (sak_byte & 0x04)` blocks are threaded here by
passing the (possibly updated) `sak_byte` on: when the first guard fails the
byte is unchanged, so the sequential and nested forms agree. -/
def uidLevel2 (spi : Spi) (fuel : Nat) (sak_byte : Nat) : M Unit :=
  if Nat.land sak_byte 4 ≠ 0 then
    cmdPhase spi fuel (fun _ => [0x00, 0x04, 0x03, 0x95, 0x20, 0x08]) >>= fun _ =>
    mmod parse_cl2 >>= fun _ =>
    cmdPhase spi fuel (sel_complete 0x95) >>= fun _ =>
    mget >>= fun d =>
    uidLevel3 spi fuel (d.rcv 0)
  else
    uidLevel3 spi fuel sak_byte

/-- `rfid_cr95hf_iso14443A_get_uid` (line 530).  `uidIsNull` models the
`uid == NULL` test of line 537. -/
def rfid_cr95hf_iso14443A_get_uid (spi : Spi) (fuel : Nat) (uidIsNull : Bool) :
    M Unit :=
  mget >>= fun d0 =>
  if d0.uid_len < 10 ∨ uidIsNull = true then
    mthrow (-22)
  else
    cmdPhase spi fuel (fun _ => [0x00, 0x04, 0x02, 0x26, 0x07]) >>= fun _ =>
    cmdPhase spi fuel (fun _ => [0x00, 0x04, 0x03, 0x93, 0x20, 0x08]) >>= fun _ =>
    mmod parse_cl1 >>= fun _ =>
    cmdPhase spi fuel (sel_complete 0x93) >>= fun _ =>
    mget >>= fun d1 =>
    uidLevel2 spi fuel (d1.rcv 0)

/-- `rfid_cr95hf_protocol_select` (line 786): only ISO_14443A is supported. -/
def rfid_cr95hf_protocol_select (spi : Spi) (fuel : Nat) (proto : Nat) :
    M Unit :=
  if proto = ISO_14443A then
    mmod (fun d => { d with
      snd := fun i => if i < d.protocol_msg_len then d.protocol_msg i % 256 else d.snd i,
      sndLen := d.protocol_msg_len, rcvLen := 0 }) >>= fun _ =>
    rfid_cr95hf_transceive spi true >>= fun _ =>
    rfid_cr95hf_wait spi fuel >>= fun _ =>
    rfid_cr95hf_response spi
  else
    mthrow (-22)

/-- The 17-byte idle/detection command template of `rfid_cr95hf_calibration`
(lines 853-869); byte 14 carries the DAC search candidate. -/
def calib_msg : List Nat :=
  [0x00, 0x07, 0x0E, 0x03, 0xA1, 0x00, 0xF8, 0x01, 0x18, 0x00, 0x20, 0x60,
   0x60, 0x00, 0x00, 0x3F, 0x01]

/-- The shared LOW/HIGH adjustment of calibration steps 2-6: response (0,1,1)
subtracts `step` from the candidate, (0,1,2) adds it (`uint8_t` arithmetic);
anything else returns -EIO (-5). -/
def calibAdjust (step : Nat) (d : Dev) : M (Option Int) :=
  if d.rcv 0 = 0 ∧ d.rcv 1 = 1 ∧ d.rcv 2 = 1 then
    mmod (fun d2 => { d2 with snd := upd8 d2.snd 14 (d2.snd 14 + 256 - step) }) >>= fun _ =>
    pure none
  else if d.rcv 0 = 0 ∧ d.rcv 1 = 1 ∧ d.rcv 2 = 2 then
    mmod (fun d2 => { d2 with snd := upd8 d2.snd 14 (d2.snd 14 + step) }) >>= fun _ =>
    pure none
  else
    mthrow (-5)

/-- One iteration of the calibration loop (lines 872-1026): send the 17-byte
idle command, wait, read the 3-byte response, then dispatch on the step index.
`some v` is the C `return v` of step 7 — note that step 7's LOW branch returns
the C `int` value `snd_buffer[14] - 4` (integer promotion, NOT `uint8_t`
wrap-around), faithful to line 1007. -/
def calibStep (spi : Spi) (fuel : Nat) (i : Nat) : M (Option Int) :=
  mmod (fun d => { d with sndLen := 17, rcvLen := 0 }) >>= fun _ =>
  rfid_cr95hf_transceive spi true >>= fun _ =>
  rfid_cr95hf_wait spi fuel >>= fun _ =>
  rfid_cr95hf_response spi >>= fun _ =>
  mget >>= fun d =>
  match i with
  | 0 =>
      if d.rcv 0 = 0 ∧ d.rcv 1 = 1 ∧ d.rcv 2 = 2 then
        mmod (fun d2 => { d2 with snd := upd8 d2.snd 14 0xFC }) >>= fun _ =>
        pure none
      else
        mthrow (-5)
  | 1 =>
      if d.rcv 0 = 0 ∧ d.rcv 1 = 1 ∧ d.rcv 2 = 1 then
        mmod (fun d2 => { d2 with snd := upd8 d2.snd 14 (d2.snd 14 + 256 - 0x80) }) >>= fun _ =>
        pure none
      else
        mthrow (-5)
  | 2 => calibAdjust 0x40 d
  | 3 => calibAdjust 0x20 d
  | 4 => calibAdjust 0x10 d
  | 5 => calibAdjust 0x08 d
  | 6 => calibAdjust 0x04 d
  | 7 =>
      if d.rcv 0 = 0 ∧ d.rcv 1 = 1 ∧ d.rcv 2 = 1 then
        pure (some ((d.snd 14 : Int) - 4))
      else if d.rcv 0 = 0 ∧ d.rcv 1 = 1 ∧ d.rcv 2 = 2 then
        pure (some ((d.snd 14 : Int)))
      else
        mthrow (-5)
  | _ => mthrow (-5)

/-- The `for (i = 0; i < 8; i++)` loop of calibration: `n` iterations remain
and `i` is the current step index; falling out of the loop is the
asserted-unreachable `return -EIO` of line 1030.  Written with a bare
`Nat.rec` so that concrete runs reduce cheaply in the kernel. -/
def calibLoop (spi : Spi) (fuel : Nat) : Nat → Nat → M Int :=
  Nat.rec (motive := fun _ => Nat → M Int)
    (fun _ => mthrow (-5))
    (fun _ ih i =>
      calibStep spi fuel i >>= fun r =>
      match r with
      | some v => pure v
      | none => ih (i + 1))

/-- `rfid_cr95hf_calibration` (line 844): initialize the idle command template,
then run the 8 search steps. -/
def rfid_cr95hf_calibration (spi : Spi) (fuel : Nat) : M Int :=
  mmod (fun d => { d with snd := storeList d.snd calib_msg }) >>= fun _ =>
  calibLoop spi fuel 8 0

/-! ## Concrete scenario inputs -/

/-- A bus response whose only relevant byte is `rcv[2] = len`: the 3-byte
response header (dummy, response code, declared payload length). -/
def hdr (len : Nat) : SpiRes := SpiRes.ok (fun i => if i = 2 then len else 0)

/-- A bus response delivering the given payload bytes. -/
def pay (bytes : List Nat) : SpiRes := SpiRes.ok (fun i => bytes.getD i 0)

/-- A don't-care bus response (commands where nothing is clocked in). -/
def busOk : SpiRes := SpiRes.ok (fun _ => 0)

/-- Build a bus oracle from a list of per-call outcomes (don't-care beyond). -/
def oracleOf (l : List SpiRes) : Spi := fun k => l.getD k busOk

/-- A base device state: READY mode, signal-strategy readiness (no bus calls
in `rfid_cr95hf_wait`), clean observation fields, a 10-byte caller buffer
prefilled with 0xEE. -/
def dev0 : Dev :=
  { current_mode := READY, cm_timestamp := 50, now_us := 50000,
    hasIrqOut := true,
    tag_detector_msg := fun _ => 0, protocol_msg := fun _ => 0,
    protocol_msg_len := 7,
    snd := fun _ => 0, rcv := fun _ => 0, sndLen := 0, rcvLen := 0,
    cs := false, nBus := 0, sleeps := [], wakePulses := 0,
    inWait := false, foW := none,
    uid := fun _ => 0xEE, uid_len := 10 }

/-- Bus schedule for the anticollision run whose SEL_CL1 response carries the
cascade-tag marker 0x88 and whose SAK has bit 0x04 clear: REQA send / header /
ATQA payload, SEL_CL1 send / header / 5-byte payload, SEL_CL1-complete send /
header / 1-byte SAK payload. -/
def o_cascade_dangling : Spi := oracleOf
  [busOk, hdr 2, pay [4, 0],
   busOk, hdr 5, pay [0x88, 0x11, 0x22, 0x33, 0x44],
   busOk, hdr 1, pay [0]]

/-- Same schedule with a SEL_CL1 response that has no cascade tag. -/
def o_cascade_plain : Spi := oracleOf
  [busOk, hdr 2, pay [4, 0],
   busOk, hdr 5, pay [0xAA, 0xBB, 0xCC, 0xDD, 0xEE],
   busOk, hdr 1, pay [0]]

/-- A cooperative bus for a `select_mode(TAG_DETECTOR)` sequence: the wake
command send, then the response header and payload. -/
def o_tag_detector : Spi := oracleOf [busOk, hdr 2, pay [0, 0]]

/-- Calibration bus schedule: per step, a command send, a response header
declaring 3 bytes, and the 3-byte outcome triple; step 0 answers the baseline
(0,1,2) and every later step answers LOW (0,1,1). -/
def lowOracle : Spi := fun k =>
  if k % 3 = 0 then busOk
  else if k % 3 = 1 then hdr 3
  else pay (if k / 3 = 0 then [0, 1, 2] else [0, 1, 1])

/-- Calibration bus schedule answering (0,1,1) at step 1 (as step 1 requires)
and HIGH (0,1,2) at steps 0 and 2-7. -/
def highOracle : Spi := fun k =>
  if k % 3 = 0 then busOk
  else if k % 3 = 1 then hdr 3
  else pay (if k / 3 = 1 then [0, 1, 1] else [0, 1, 2])

/-- The claim's predicted all-LOW calibration result: replaying the documented
subtraction sequence from 0xFC in exact 8-bit arithmetic, including the final
LOW adjustment by 4 at step 7. -/
def calib_claim_low_ref : Nat :=
  (((((((0xFC + 256 - 0x80) % 256 + 256 - 0x40) % 256 + 256 - 0x20) % 256
    + 256 - 0x10) % 256 + 256 - 0x08) % 256 + 256 - 0x04) % 256 + 256 - 4) % 256

/-- Modelled from the spec: the settle wait required by §4.3 step 3, "If
elapsed time since last transition is below 10 ms, block for the remainder",
as a function of the current uptime and the recorded transition timestamp,
both in milliseconds.  This is the claim's reading, stated for contrast with
the guard actually implemented at line 459. -/
def spec_settle_wait_ms (now_ms ts : Nat) : Nat :=
  if now_ms - ts < 10 then 10 - (now_ms - ts) else 0

/-- A device 25 ms after boot whose last transition was at 20 ms (elapsed
5 ms, below the dwell time). -/
def dev_recent_switch : Dev :=
  { dev0 with current_mode := POWER_UP, cm_timestamp := 20, now_us := 25000 }

/-- A device 50 ms after boot whose last transition was at 3 ms (elapsed
47 ms, well past the dwell time). -/
def dev_stale_switch : Dev :=
  { dev0 with current_mode := POWER_UP, cm_timestamp := 3, now_us := 50000 }

/-- A device currently in READER mode. -/
def dev_reader : Dev :=
  { dev0 with current_mode := READER, cm_timestamp := 100, now_us := 100000 }

/-- A device configured without an IRQ_OUT line, so `rfid_cr95hf_wait` uses
the active-polling strategy. -/
def dev_polling : Dev := { dev0 with hasIrqOut := false }

/-- Bus schedule for a `get_uid` run under the polling strategy in which the
flag-read inside the first `rfid_cr95hf_wait` (bus call 2) fails with -EIO,
while every other call cooperates. -/
def o_swallow : Spi := oracleOf
  [busOk, busOk, SpiRes.fail (-5), hdr 2, pay [4, 0],
   busOk, busOk, pay [8], hdr 5, pay [0xAA, 0xBB, 0xCC, 0xDD, 0xEE],
   busOk, busOk, pay [8], hdr 1, pay [0]]

/-- A bus on which every primitive invocation fails with -7. -/
def o_allFail : Spi := fun _ => SpiRes.fail (-7)


/-- Bus schedule for a full three-level anticollision cascade: SEL_CL1 and
SEL_CL2 responses carry the cascade-tag marker 0x88 with payload bytes
`a1..a4` / `b1..b4`, the SAK bytes after the level-1 and level-2 completes are
`s1` / `s2`, the SEL_CL3 response carries `c1..c5`, and the SAK byte after the
level-3 complete is `s3`. -/
def o_cascade3 (a1 a2 a3 a4 s1 b1 b2 b3 b4 s2 c1 c2 c3 c4 c5 s3 : Nat) : Spi :=
  oracleOf
    [busOk, hdr 2, pay [4, 0],
     busOk, hdr 5, pay [0x88, a1, a2, a3, a4],
     busOk, hdr 1, pay [s1],
     busOk, hdr 5, pay [0x88, b1, b2, b3, b4],
     busOk, hdr 1, pay [s2],
     busOk, hdr 5, pay [c1, c2, c3, c4, c5],
     busOk, hdr 1, pay [s3]]

/-! ## Verification predicates -/

/-- A two-state invariant: running `f` from any state `d` yields a final state
related to `d` by `P`, on success and on error alike. -/
def StInv {α : Type} (P : Dev → Dev → Prop) (f : M α) : Prop :=
  ∀ d, P d ((f d).2)

/-- The final state keeps the caller's `uid_len` value. -/
def UidLenEq : Dev → Dev → Prop := fun d d2 => d2.uid_len = d.uid_len

/-- When entered with the `inWait` ghost flag set, the computation leaves the
`foW` record and the flag untouched (bus failures inside the readiness wait
are not charged to the outside world). -/
def WaitSafe : Dev → Dev → Prop := fun d d2 =>
  d.inWait = true → d2.foW = d.foW ∧ d2.inWait = true

/-- Error-propagation discipline: starting with no recorded outside-of-wait
bus failure, either the run records none, or it records exactly one failure
`e` and the run's result is `Except.error e` — the transport failure surfaces
unchanged to the caller. -/
def PropFoW {α : Type} (f : M α) : Prop :=
  ∀ d, d.foW = none →
    ((f d).2).foW = none ∨ ∃ e, ((f d).2).foW = some e ∧ (f d).1 = Except.error e

/-! ## Claim theorems -/

theorem bind_def {α β : Type} (x : M α) (f : α → M β) : x >>= f = mbind x f := rfl

theorem pure_def {α : Type} (a : α) : (pure a : M α) = mret a := rfl

/-- Claim C1 (code bug): the spec requires `select_mode` to block for the
remainder of the 10 ms dwell time exactly when less than 10 ms elapsed since
the last transition.  The code instead tests `cm_timestamp < 10`, the absolute
uptime of the last transition (line 459).  With a transition at 20 ms and
uptime 25 ms (5 ms elapsed) the spec demands a 5 ms block, but the run's sleep
log holds only the wake pulse (10 µs) and the fixed 10 ms settle delay; with a
transition at 3 ms and uptime 50 ms (47 ms elapsed) the spec demands no block,
but the run sleeps 7 ms first. -/
theorem c1_code_divergence :
    (rfid_cr95hf_select_mode (fun _ => busOk) 9 SLEEP dev_recent_switch).2.sleeps
        = [10, 10000] ∧
    spec_settle_wait_ms 25 20 = 5 ∧
    (rfid_cr95hf_select_mode (fun _ => busOk) 9 SLEEP dev_stale_switch).2.sleeps
        = [7000, 10, 10000] ∧
    spec_settle_wait_ms 50 3 = 0 :=
  ⟨rfl, rfl, rfl, rfl⟩

/-- Claim C3 (code bug): on the all-LOW response sequence the code returns the
C `int` value `snd_buffer[14] - 4` with the candidate at 0, that is -4 — inside
the negative errno range the API header reserves for errors — whereas the
claim's exact 8-bit replay of the subtraction sequence from 0xFC predicts 0xFC
(252).  The all-HIGH sequence (after the forced LOW at step 1) returns
248 = 0xF8, as the claim computes. -/
theorem c3_code_divergence :
    (rfid_cr95hf_calibration lowOracle 9 dev0).1 = Except.ok (-4) ∧
    calib_claim_low_ref = 252 ∧
    ((-4 : Int) ≠ (calib_claim_low_ref : Int)) ∧
    (rfid_cr95hf_calibration highOracle 9 dev0).1 = Except.ok 248 :=
  ⟨rfl, rfl, by decide, rfl⟩

/-- Claim C4 (code bug): with the current mode READER and a different
requested mode below INVALID, the claim (and spec) demand a NotImplemented
failure with no wake pulse and no mode switch.  The code only logs and falls
through (lines 465-468): the run below returns success, performs 3 bus calls,
issues no wake pulse, and ends with the mode switched to READY through the
TAG_DETECTOR sequence. -/
theorem c4_code_divergence :
    READER ≠ TAG_DETECTOR ∧ TAG_DETECTOR < INVALID ∧
    (rfid_cr95hf_select_mode o_tag_detector 9 TAG_DETECTOR dev_reader).1
        = Except.ok () ∧
    (rfid_cr95hf_select_mode o_tag_detector 9 TAG_DETECTOR dev_reader).2.nBus = 3 ∧
    (rfid_cr95hf_select_mode o_tag_detector 9 TAG_DETECTOR dev_reader).2.wakePulses
        = dev_reader.wakePulses ∧
    (rfid_cr95hf_select_mode o_tag_detector 9 TAG_DETECTOR dev_reader).2.current_mode
        = READY :=
  ⟨by decide, by decide, rfl, rfl, rfl, rfl⟩

/-- Claim C6 (confirmed): with SEL_CL1 response `88 11 22 33 44` and a SAK
lacking bit 0x04, the UID begins 11 22 33, position 3 keeps the caller's
prefill (no level-2 bytes are contributed), and the final length is the
caller's 10, not 7; with SEL_CL1 response `AA BB CC DD EE` and the same SAK,
the UID is AA BB CC DD with final length 4. -/
theorem c6_anticollision_scenarios :
    (rfid_cr95hf_iso14443A_get_uid o_cascade_dangling 9 false dev0).1
        = Except.ok () ∧
    (rfid_cr95hf_iso14443A_get_uid o_cascade_dangling 9 false dev0).2.uid 0 = 0x11 ∧
    (rfid_cr95hf_iso14443A_get_uid o_cascade_dangling 9 false dev0).2.uid 1 = 0x22 ∧
    (rfid_cr95hf_iso14443A_get_uid o_cascade_dangling 9 false dev0).2.uid 2 = 0x33 ∧
    (rfid_cr95hf_iso14443A_get_uid o_cascade_dangling 9 false dev0).2.uid 3 = 0xEE ∧
    (rfid_cr95hf_iso14443A_get_uid o_cascade_dangling 9 false dev0).2.uid_len ≠ 7 ∧
    (rfid_cr95hf_iso14443A_get_uid o_cascade_plain 9 false dev0).1 = Except.ok () ∧
    (rfid_cr95hf_iso14443A_get_uid o_cascade_plain 9 false dev0).2.uid 0 = 0xAA ∧
    (rfid_cr95hf_iso14443A_get_uid o_cascade_plain 9 false dev0).2.uid 1 = 0xBB ∧
    (rfid_cr95hf_iso14443A_get_uid o_cascade_plain 9 false dev0).2.uid 2 = 0xCC ∧
    (rfid_cr95hf_iso14443A_get_uid o_cascade_plain 9 false dev0).2.uid 3 = 0xDD ∧
    (rfid_cr95hf_iso14443A_get_uid o_cascade_plain 9 false dev0).2.uid_len = 4 :=
  ⟨rfl, rfl, rfl, rfl, rfl, by decide, rfl, rfl, rfl, rfl, rfl, rfl⟩

/-- Claim C2, counterexample: a successful `get_uid` run whose SEL_CL1
response begins with the cascade-tag marker 0x88 while the subsequent SAK has
bit 0x04 clear, started with a caller length of 11, never writes the length
output: the call succeeds and the final length is 11, not one of 4, 7, 10. -/
theorem c2_counterexample :
    (rfid_cr95hf_iso14443A_get_uid o_cascade_dangling 9 false
        { dev0 with uid_len := 11 }).1 = Except.ok () ∧
    (rfid_cr95hf_iso14443A_get_uid o_cascade_dangling 9 false
        { dev0 with uid_len := 11 }).2.uid_len = 11 ∧
    ¬ (11 = 4 ∨ 11 = 7 ∨ 11 = 10) :=
  ⟨rfl, rfl, by decide⟩

/-- Claim C5, counterexample: under the polling strategy, bus call 2 — the
status-byte read inside the readiness synchronizer's polling loop — fails with
-EIO, yet the enclosing `get_uid` returns success (the `void` wait wrapper
discards polling's error) after consuming all 15 scheduled bus calls. -/
theorem c5_counterexample :
    o_swallow 2 = SpiRes.fail (-5) ∧
    (rfid_cr95hf_iso14443A_get_uid o_swallow 9 false dev_polling).1
        = Except.ok () ∧
    (rfid_cr95hf_iso14443A_get_uid o_swallow 9 false dev_polling).2.nBus = 15 :=
  ⟨rfl, rfl, rfl⟩

/-- Claim C10 (confirmed): with a NULL uid pointer, `get_uid` fails with
-EINVAL (-22) regardless of the declared buffer length, leaving the device
state — including the bus-call count, the uid buffer and the length output —
completely unchanged. -/
theorem c10_null_uid (spi : Spi) (fuel : Nat) (d : Dev) :
    rfid_cr95hf_iso14443A_get_uid spi fuel true d = (Except.error (-22), d) := by
  unfold rfid_cr95hf_iso14443A_get_uid
  simp only [bind_def, mbind, mget]
  rw [if_pos (Or.inr trivial)]
  rfl

/-- Claim C8 (confirmed): with a caller-declared buffer length below 10,
`get_uid` fails with -EINVAL (-22) before any bus transaction, leaving the
device state — including the bus-call count, the uid buffer and the length
output — completely unchanged. -/
theorem c8_short_buffer (spi : Spi) (fuel : Nat) (uidIsNull : Bool) (d : Dev)
    (h : d.uid_len < 10) :
    rfid_cr95hf_iso14443A_get_uid spi fuel uidIsNull d = (Except.error (-22), d) := by
  unfold rfid_cr95hf_iso14443A_get_uid
  simp only [bind_def, mbind, mget]
  rw [if_pos (Or.inl h)]
  rfl

/-- Witness for C8 at a concrete undersized buffer (declared length 5). -/
theorem c8_witness :
    rfid_cr95hf_iso14443A_get_uid (fun _ => busOk) 9 false
        { dev0 with uid_len := 5 }
      = (Except.error (-22), { dev0 with uid_len := 5 }) :=
  c8_short_buffer (fun _ => busOk) 9 false { dev0 with uid_len := 5 } (by decide)

/-- Claim C9 (confirmed): if the bus primitive fails during a transact call
with the release flag set (and the buffer lengths actually trigger a bus
call), the call returns that error at once: chip-select is still asserted and
the only logged delay is the initial 1 ms settle — neither the release delay
nor the trailing settle delay of the success path happened. -/
theorem c9_transceive_error_path (spi : Spi) (d : Dev) (e : Int)
    (hf : spi d.nBus = SpiRes.fail e) (hl : d.sndLen > 0 ∨ d.rcvLen > 0) :
    (rfid_cr95hf_transceive spi true d).1 = Except.error e ∧
    (rfid_cr95hf_transceive spi true d).2.cs = true ∧
    (rfid_cr95hf_transceive spi true d).2.sleeps = d.sleeps ++ [1000] := by
  unfold rfid_cr95hf_transceive
  by_cases h1 : d.sndLen > 0 <;> by_cases h2 : d.rcvLen > 0
  · simp only [bind_def, mbind, mget, k_sleep, mmod, spi_xfer, h1, h2, and_self,
      if_true, true_and, and_true, ite_true, hf]
  · simp only [bind_def, mbind, mget, k_sleep, mmod, spi_xfer, h1, h2, and_false,
      if_false, if_true, true_and, and_true, ite_true, ite_false, hf]
  · simp only [bind_def, mbind, mget, k_sleep, mmod, spi_xfer, h1, h2, false_and,
      if_false, if_true, true_and, and_true, ite_true, ite_false, hf]
  · exact absurd hl (by simp [h1, h2])

/-- Witness for C9: a concrete failing bus call during a transact. -/
theorem c9_witness :
    (rfid_cr95hf_transceive o_allFail true { dev0 with sndLen := 2 }).1
        = Except.error (-7) ∧
    (rfid_cr95hf_transceive o_allFail true { dev0 with sndLen := 2 }).2.cs = true ∧
    (rfid_cr95hf_transceive o_allFail true { dev0 with sndLen := 2 }).2.sleeps
        = dev0.sleeps ++ [1000] :=
  c9_transceive_error_path o_allFail { dev0 with sndLen := 2 } (-7) rfl
    (Or.inl (by decide))
theorem stInv_bind {α β : Type} {P : Dev → Dev → Prop} {x : M α} {f : α → M β}
    (htrans : ∀ a b c, P a b → P b c → P a c)
    (hx : StInv P x) (hf : ∀ a, StInv P (f a)) : StInv P (x >>= f) := by
  intro d
  rw [bind_def]
  unfold mbind
  rcases hx1 : x d with ⟨r, d1⟩
  have h1 : P d d1 := by have h := hx d; rw [hx1] at h; exact h
  cases r with
  | ok a => simp only [hx1]; exact htrans _ _ _ h1 (hf a d1)
  | error e => simp only [hx1]; exact h1

theorem stInv_ite {α : Type} {P : Dev → Dev → Prop} {c : Prop} [Decidable c]
    {x y : M α} (hx : StInv P x) (hy : StInv P y) :
    StInv P (if c then x else y) := by
  by_cases h : c
  · rw [if_pos h]; exact hx
  · rw [if_neg h]; exact hy

theorem uidLenEq_trans : ∀ a b c : Dev, UidLenEq a b → UidLenEq b c → UidLenEq a c :=
  fun _ _ _ h1 h2 => h2.trans h1

theorem uidLen_spi_xfer (spi : Spi) (n : Nat) : StInv UidLenEq (spi_xfer spi n) := by
  intro d
  unfold spi_xfer
  rcases spi d.nBus with e | bytes <;> rfl

theorem uidLen_transceive (spi : Spi) (rcs : Bool) :
    StInv UidLenEq (rfid_cr95hf_transceive spi rcs) := by
  unfold rfid_cr95hf_transceive
  refine stInv_bind uidLenEq_trans (fun d => rfl) fun _ => ?_
  refine stInv_bind uidLenEq_trans (fun d => rfl) fun _ => ?_
  refine stInv_bind uidLenEq_trans (fun d => rfl) fun d => ?_
  refine stInv_bind uidLenEq_trans
    (stInv_ite (uidLen_spi_xfer _ _) (stInv_ite (uidLen_spi_xfer _ _)
      (stInv_ite (uidLen_spi_xfer _ _) (fun d => rfl)))) fun _ => ?_
  refine stInv_bind uidLenEq_trans
    (stInv_ite (stInv_bind uidLenEq_trans (fun d => rfl) fun _ => fun d => rfl)
      (fun d => rfl)) fun _ => ?_
  exact fun d => rfl

theorem pollLoop_zero (spi : Spi) (rr rs : Bool) :
    pollLoop spi rr rs 0 = mthrow (-1000) := rfl

theorem pollLoop_succ (spi : Spi) (rr rs : Bool) (n : Nat) :
    pollLoop spi rr rs (n + 1) =
      (mmod (fun d => { d with rcv := upd8 d.rcv 0 0 }) >>= fun _ =>
       rfid_cr95hf_transceive spi true >>= fun _ =>
       mget >>= fun d =>
       if rr = true ∧ Nat.land (d.rcv 0) 8 ≠ 0 then
         pure ()
       else if rs = true ∧ Nat.land (d.rcv 0) 4 ≠ 0 then
         pure ()
       else
         pollLoop spi rr rs n) := rfl

theorem uidLen_pollLoop (spi : Spi) (rr rs : Bool) (n : Nat) :
    StInv UidLenEq (pollLoop spi rr rs n) := by
  induction n with
  | zero => exact fun d => rfl
  | succ n ih =>
      rw [pollLoop_succ]
      refine stInv_bind uidLenEq_trans (fun d => rfl) fun _ => ?_
      refine stInv_bind uidLenEq_trans (uidLen_transceive _ _) fun _ => ?_
      refine stInv_bind uidLenEq_trans (fun d => rfl) fun d => ?_
      exact stInv_ite (fun d => rfl) (stInv_ite (fun d => rfl) ih)

theorem uidLen_polling (spi : Spi) (fuel : Nat) (rr rs : Bool) :
    StInv UidLenEq (rfid_cr95hf_polling spi fuel rr rs) := by
  unfold rfid_cr95hf_polling
  refine stInv_bind uidLenEq_trans (fun d => rfl) fun _ => ?_
  refine stInv_bind uidLenEq_trans (uidLen_transceive _ _) fun _ => ?_
  refine stInv_bind uidLenEq_trans (fun d => rfl) fun _ => ?_
  exact uidLen_pollLoop _ _ _ _

theorem uidLen_wait (spi : Spi) (fuel : Nat) :
    StInv UidLenEq (rfid_cr95hf_wait spi fuel) := by
  intro d
  unfold rfid_cr95hf_wait
  by_cases h : d.hasIrqOut
  · rw [if_pos h]
    exact rfl
  · rw [if_neg h]
    rcases hp : rfid_cr95hf_polling spi fuel true true { d with inWait := true }
      with ⟨r, d1⟩
    have h1 : d1.uid_len = d.uid_len := by
      have h2 := uidLen_polling spi fuel true true { d with inWait := true }
      rw [hp] at h2
      exact h2
    simp only [hp]
    exact h1

theorem uidLen_response (spi : Spi) : StInv UidLenEq (rfid_cr95hf_response spi) := by
  unfold rfid_cr95hf_response
  refine stInv_bind uidLenEq_trans (fun d => rfl) fun _ => ?_
  refine stInv_bind uidLenEq_trans (uidLen_transceive _ _) fun _ => ?_
  refine stInv_bind uidLenEq_trans (fun d => rfl) fun d => ?_
  refine stInv_bind uidLenEq_trans (fun d => rfl) fun _ => ?_
  exact uidLen_transceive _ _

theorem uidLen_cmdPhase (spi : Spi) (fuel : Nat) (mk : Dev → List Nat) :
    StInv UidLenEq (cmdPhase spi fuel mk) := by
  unfold cmdPhase
  refine stInv_bind uidLenEq_trans (fun d => rfl) fun _ => ?_
  refine stInv_bind uidLenEq_trans (uidLen_transceive _ _) fun _ => ?_
  refine stInv_bind uidLenEq_trans (uidLen_wait _ _) fun _ => ?_
  exact uidLen_response _
theorem run_bind_ok {α β : Type} {x : M α} {f : α → M β} {d d1 : Dev} {a : α}
    (h : x d = (Except.ok a, d1)) : (x >>= f) d = f a d1 := by
  rw [bind_def]
  unfold mbind
  rw [h]

theorem run_bind_err {α β : Type} {x : M α} {f : α → M β} {d d1 : Dev} {e : Int}
    (h : x d = (Except.error e, d1)) : (x >>= f) d = (Except.error e, d1) := by
  rw [bind_def]
  unfold mbind
  rw [h]

theorem parse_cl1_len (d : Dev) :
    (parse_cl1 d).uid_len = 4 ∨ (parse_cl1 d).uid_len = d.uid_len := by
  unfold parse_cl1
  by_cases h : d.rcv 0 = 0x88
  · rw [if_pos h]; right; rfl
  · rw [if_neg h]; left; rfl

theorem parse_cl2_len (d : Dev) :
    (parse_cl2 d).uid_len = 7 ∨ (parse_cl2 d).uid_len = d.uid_len := by
  unfold parse_cl2
  by_cases h : d.rcv 0 = 0x88
  · rw [if_pos h]; right; rfl
  · rw [if_neg h]; left; rfl

theorem uidLevel3_len (spi : Spi) (fuel sak : Nat) (d : Dev) :
    ((uidLevel3 spi fuel sak d).2).uid_len = 10 ∨
    ((uidLevel3 spi fuel sak d).2).uid_len = d.uid_len := by
  unfold uidLevel3
  by_cases hs : Nat.land sak 4 ≠ 0
  · rw [if_pos hs]
    rcases h1 : cmdPhase spi fuel (fun _ => [0x00, 0x04, 0x03, 0x97, 0x20, 0x08]) d
      with ⟨r1, d1⟩
    have e1 : d1.uid_len = d.uid_len := by
      have h := uidLen_cmdPhase spi fuel (fun _ => [0x00, 0x04, 0x03, 0x97, 0x20, 0x08]) d
      rw [h1] at h
      exact h
    cases r1 with
    | error e =>
        rw [run_bind_err h1]
        right
        exact e1
    | ok a =>
        rw [run_bind_ok h1]
        rw [run_bind_ok (show mmod parse_cl3 d1 = (Except.ok (), parse_cl3 d1) from rfl)]
        rcases h2 : cmdPhase spi fuel (sel_complete 0x97) (parse_cl3 d1) with ⟨r2, d2⟩
        have e2 : d2.uid_len = (parse_cl3 d1).uid_len := by
          have h := uidLen_cmdPhase spi fuel (sel_complete 0x97) (parse_cl3 d1)
          rw [h2] at h
          exact h
        left
        show d2.uid_len = 10
        rw [e2]
        rfl
  · rw [if_neg hs]
    right
    rfl

theorem uidLevel2_len (spi : Spi) (fuel sak : Nat) (d : Dev) :
    ((uidLevel2 spi fuel sak d).2).uid_len = 7 ∨
    ((uidLevel2 spi fuel sak d).2).uid_len = 10 ∨
    ((uidLevel2 spi fuel sak d).2).uid_len = d.uid_len := by
  unfold uidLevel2
  by_cases hs : Nat.land sak 4 ≠ 0
  · rw [if_pos hs]
    rcases h1 : cmdPhase spi fuel (fun _ => [0x00, 0x04, 0x03, 0x95, 0x20, 0x08]) d
      with ⟨r1, d1⟩
    have e1 : d1.uid_len = d.uid_len := by
      have h := uidLen_cmdPhase spi fuel (fun _ => [0x00, 0x04, 0x03, 0x95, 0x20, 0x08]) d
      rw [h1] at h
      exact h
    cases r1 with
    | error e =>
        rw [run_bind_err h1]
        right; right
        exact e1
    | ok a =>
        rw [run_bind_ok h1]
        rw [run_bind_ok (show mmod parse_cl2 d1 = (Except.ok (), parse_cl2 d1) from rfl)]
        rcases h2 : cmdPhase spi fuel (sel_complete 0x95) (parse_cl2 d1) with ⟨r2, d2⟩
        have e2 : d2.uid_len = (parse_cl2 d1).uid_len := by
          have h := uidLen_cmdPhase spi fuel (sel_complete 0x95) (parse_cl2 d1)
          rw [h2] at h
          exact h
        cases r2 with
        | error e =>
            rw [run_bind_err h2]
            rcases parse_cl2_len d1 with h7 | hkeep
            · left; rw [e2, h7]
            · right; right; rw [e2, hkeep, e1]
        | ok a2 =>
            rw [run_bind_ok h2]
            rw [run_bind_ok (show mget d2 = (Except.ok d2, d2) from rfl)]
            rcases uidLevel3_len spi fuel (d2.rcv 0) d2 with h10 | hkeep3
            · right; left; exact h10
            · rcases parse_cl2_len d1 with h7 | hkeep
              · left; rw [hkeep3, e2, h7]
              · right; right; rw [hkeep3, e2, hkeep, e1]
  · rw [if_neg hs]
    rcases uidLevel3_len spi fuel sak d with h10 | hkeep
    · right; left; exact h10
    · right; right; exact hkeep

theorem get_uid_len_cases (spi : Spi) (fuel : Nat) (uidIsNull : Bool) (d : Dev) :
    ((rfid_cr95hf_iso14443A_get_uid spi fuel uidIsNull d).2).uid_len = 4 ∨
    ((rfid_cr95hf_iso14443A_get_uid spi fuel uidIsNull d).2).uid_len = 7 ∨
    ((rfid_cr95hf_iso14443A_get_uid spi fuel uidIsNull d).2).uid_len = 10 ∨
    ((rfid_cr95hf_iso14443A_get_uid spi fuel uidIsNull d).2).uid_len = d.uid_len := by
  unfold rfid_cr95hf_iso14443A_get_uid
  rw [run_bind_ok (show mget d = (Except.ok d, d) from rfl)]
  by_cases h0 : d.uid_len < 10 ∨ uidIsNull = true
  · rw [if_pos h0]
    right; right; right; rfl
  · rw [if_neg h0]
    rcases h1 : cmdPhase spi fuel (fun _ => [0x00, 0x04, 0x02, 0x26, 0x07]) d
      with ⟨r1, d1⟩
    have e1 : d1.uid_len = d.uid_len := by
      have h := uidLen_cmdPhase spi fuel (fun _ => [0x00, 0x04, 0x02, 0x26, 0x07]) d
      rw [h1] at h
      exact h
    cases r1 with
    | error e =>
        rw [run_bind_err h1]
        right; right; right
        exact e1
    | ok a =>
        rw [run_bind_ok h1]
        rcases h2 : cmdPhase spi fuel (fun _ => [0x00, 0x04, 0x03, 0x93, 0x20, 0x08]) d1
          with ⟨r2, d2⟩
        have e2 : d2.uid_len = d1.uid_len := by
          have h := uidLen_cmdPhase spi fuel (fun _ => [0x00, 0x04, 0x03, 0x93, 0x20, 0x08]) d1
          rw [h2] at h
          exact h
        cases r2 with
        | error e =>
            rw [run_bind_err h2]
            right; right; right
            rw [e2, e1]
        | ok a2 =>
            rw [run_bind_ok h2]
            rw [run_bind_ok (show mmod parse_cl1 d2 = (Except.ok (), parse_cl1 d2) from rfl)]
            rcases h3 : cmdPhase spi fuel (sel_complete 0x93) (parse_cl1 d2) with ⟨r3, d3⟩
            have e3 : d3.uid_len = (parse_cl1 d2).uid_len := by
              have h := uidLen_cmdPhase spi fuel (sel_complete 0x93) (parse_cl1 d2)
              rw [h3] at h
              exact h
            cases r3 with
            | error e =>
                rw [run_bind_err h3]
                rcases parse_cl1_len d2 with h4 | hkeep
                · left; rw [e3, h4]
                · right; right; right; rw [e3, hkeep, e2, e1]
            | ok a3 =>
                rw [run_bind_ok h3]
                rw [run_bind_ok (show mget d3 = (Except.ok d3, d3) from rfl)]
                rcases uidLevel2_len spi fuel (d3.rcv 0) d3 with h7 | h10 | hkeep2
                · right; left; exact h7
                · right; right; left; exact h10
                · rcases parse_cl1_len d2 with h4 | hkeep
                  · left; rw [hkeep2, e3, h4]
                  · right; right; right; rw [hkeep2, e3, hkeep, e2, e1]

/-- Claim C2, amended (corrected): on every `get_uid` execution that returns
success, the final length output is 4, 7, or 10, or else it was never written
and retains the caller's original value (which happens on the anomalous paths
where a select response carried the cascade-tag marker 0x88 while the
subsequent SAK byte had bit 0x04 clear, as the counterexample exhibits). -/
theorem c2_amended (spi : Spi) (fuel : Nat) (uidIsNull : Bool) (d : Dev)
    (_hsucc : (rfid_cr95hf_iso14443A_get_uid spi fuel uidIsNull d).1 = Except.ok ()) :
    ((rfid_cr95hf_iso14443A_get_uid spi fuel uidIsNull d).2).uid_len = 4 ∨
    ((rfid_cr95hf_iso14443A_get_uid spi fuel uidIsNull d).2).uid_len = 7 ∨
    ((rfid_cr95hf_iso14443A_get_uid spi fuel uidIsNull d).2).uid_len = 10 ∨
    ((rfid_cr95hf_iso14443A_get_uid spi fuel uidIsNull d).2).uid_len = d.uid_len :=
  get_uid_len_cases spi fuel uidIsNull d

/-- Witness for C2 (amended) on a concrete successful run. -/
theorem c2_amended_witness :
    ((rfid_cr95hf_iso14443A_get_uid o_cascade_plain 9 false dev0).2).uid_len = 4 ∨
    ((rfid_cr95hf_iso14443A_get_uid o_cascade_plain 9 false dev0).2).uid_len = 7 ∨
    ((rfid_cr95hf_iso14443A_get_uid o_cascade_plain 9 false dev0).2).uid_len = 10 ∨
    ((rfid_cr95hf_iso14443A_get_uid o_cascade_plain 9 false dev0).2).uid_len
        = dev0.uid_len :=
  c2_amended o_cascade_plain 9 false dev0 rfl
theorem waitSafe_trans : ∀ a b c : Dev, WaitSafe a b → WaitSafe b c → WaitSafe a c := by
  intro a b c h1 h2 ha
  rcases h1 ha with ⟨hf1, hw1⟩
  rcases h2 hw1 with ⟨hf2, hw2⟩
  exact ⟨hf2.trans hf1, hw2⟩

theorem waitSafe_spi_xfer (spi : Spi) (n : Nat) : StInv WaitSafe (spi_xfer spi n) := by
  intro d h
  unfold spi_xfer
  rcases spi d.nBus with e | bytes
  · refine ⟨?_, h⟩
    show (if d.inWait then d.foW else some (d.foW.getD e)) = d.foW
    rw [if_pos h]
  · exact ⟨rfl, h⟩

theorem waitSafe_transceive (spi : Spi) (rcs : Bool) :
    StInv WaitSafe (rfid_cr95hf_transceive spi rcs) := by
  unfold rfid_cr95hf_transceive
  refine stInv_bind waitSafe_trans (fun d h => ⟨rfl, h⟩) fun _ => ?_
  refine stInv_bind waitSafe_trans (fun d h => ⟨rfl, h⟩) fun _ => ?_
  refine stInv_bind waitSafe_trans (fun d h => ⟨rfl, h⟩) fun d => ?_
  refine stInv_bind waitSafe_trans
    (stInv_ite (waitSafe_spi_xfer _ _) (stInv_ite (waitSafe_spi_xfer _ _)
      (stInv_ite (waitSafe_spi_xfer _ _) (fun d h => ⟨rfl, h⟩)))) fun _ => ?_
  refine stInv_bind waitSafe_trans
    (stInv_ite (stInv_bind waitSafe_trans (fun d h => ⟨rfl, h⟩)
        fun _ => fun d h => ⟨rfl, h⟩)
      (fun d h => ⟨rfl, h⟩)) fun _ => ?_
  exact fun d h => ⟨rfl, h⟩

theorem waitSafe_pollLoop (spi : Spi) (rr rs : Bool) (n : Nat) :
    StInv WaitSafe (pollLoop spi rr rs n) := by
  induction n with
  | zero => exact fun d h => ⟨rfl, h⟩
  | succ n ih =>
      rw [pollLoop_succ]
      refine stInv_bind waitSafe_trans (fun d h => ⟨rfl, h⟩) fun _ => ?_
      refine stInv_bind waitSafe_trans (waitSafe_transceive _ _) fun _ => ?_
      refine stInv_bind waitSafe_trans (fun d h => ⟨rfl, h⟩) fun d => ?_
      exact stInv_ite (fun d h => ⟨rfl, h⟩) (stInv_ite (fun d h => ⟨rfl, h⟩) ih)

theorem waitSafe_polling (spi : Spi) (fuel : Nat) (rr rs : Bool) :
    StInv WaitSafe (rfid_cr95hf_polling spi fuel rr rs) := by
  unfold rfid_cr95hf_polling
  refine stInv_bind waitSafe_trans (fun d h => ⟨rfl, h⟩) fun _ => ?_
  refine stInv_bind waitSafe_trans (waitSafe_transceive _ _) fun _ => ?_
  refine stInv_bind waitSafe_trans (fun d h => ⟨rfl, h⟩) fun _ => ?_
  exact waitSafe_pollLoop _ _ _ _

/-- `rfid_cr95hf_wait` never fails (the C function is void) and never touches
the record of bus failures charged outside the readiness wait. -/
theorem wait_state (spi : Spi) (fuel : Nat) (d : Dev) :
    (rfid_cr95hf_wait spi fuel d).1 = Except.ok () ∧
    ((rfid_cr95hf_wait spi fuel d).2).foW = d.foW := by
  unfold rfid_cr95hf_wait
  by_cases h : d.hasIrqOut
  · rw [if_pos h]
    constructor
    · rfl
    · rfl
  · rw [if_neg h]
    rcases hp : rfid_cr95hf_polling spi fuel true true { d with inWait := true }
      with ⟨r, d1⟩
    have hws : WaitSafe { d with inWait := true } d1 := by
      have h2 := waitSafe_polling spi fuel true true { d with inWait := true }
      rw [hp] at h2
      exact h2
    simp only [hp]
    exact ⟨trivial, (hws rfl).1⟩
theorem propFoW_of_pres {α : Type} {f : M α} (h : ∀ d, ((f d).2).foW = d.foW) :
    PropFoW f :=
  fun d h0 => Or.inl ((h d).trans h0)

theorem propFoW_bind {α β : Type} {x : M α} {f : α → M β}
    (hx : PropFoW x) (hf : ∀ a, PropFoW (f a)) : PropFoW (x >>= f) := by
  intro d h0
  rw [bind_def]
  unfold mbind
  rcases hx1 : x d with ⟨r, d1⟩
  have hx2 := hx d h0
  rw [hx1] at hx2
  rcases hx2 with hnone | ⟨e, hsome, herr⟩
  · cases r with
    | ok a =>
        simp only [hx1]
        exact hf a d1 hnone
    | error e0 =>
        simp only [hx1]
        exact Or.inl hnone
  · cases r with
    | ok a => exact absurd herr (by simp)
    | error e0 =>
        simp only [hx1]
        right
        refine ⟨e, hsome, ?_⟩
        simpa using herr
  -- r cases done

theorem propFoW_ite {α : Type} {c : Prop} [Decidable c] {x y : M α}
    (hx : PropFoW x) (hy : PropFoW y) : PropFoW (if c then x else y) := by
  by_cases h : c
  · rw [if_pos h]; exact hx
  · rw [if_neg h]; exact hy

theorem propFoW_spi_xfer (spi : Spi) (n : Nat) : PropFoW (spi_xfer spi n) := by
  intro d h0
  unfold spi_xfer
  rcases spi d.nBus with e | bytes
  · by_cases hw : d.inWait = true
    · left
      show (if d.inWait then d.foW else some (d.foW.getD e)) = none
      rw [if_pos hw]
      exact h0
    · right
      refine ⟨e, ?_, rfl⟩
      show (if d.inWait then d.foW else some (d.foW.getD e)) = some e
      rw [if_neg hw, h0]
      rfl
  · exact Or.inl h0

theorem propFoW_wait (spi : Spi) (fuel : Nat) : PropFoW (rfid_cr95hf_wait spi fuel) :=
  propFoW_of_pres fun d => (wait_state spi fuel d).2

theorem propFoW_transceive (spi : Spi) (rcs : Bool) :
    PropFoW (rfid_cr95hf_transceive spi rcs) := by
  unfold rfid_cr95hf_transceive
  refine propFoW_bind (propFoW_of_pres fun d => rfl) fun _ => ?_
  refine propFoW_bind (propFoW_of_pres fun d => rfl) fun _ => ?_
  refine propFoW_bind (propFoW_of_pres fun d => rfl) fun d => ?_
  refine propFoW_bind
    (propFoW_ite (propFoW_spi_xfer _ _) (propFoW_ite (propFoW_spi_xfer _ _)
      (propFoW_ite (propFoW_spi_xfer _ _) (propFoW_of_pres fun d => rfl)))) fun _ => ?_
  refine propFoW_bind
    (propFoW_ite (propFoW_bind (propFoW_of_pres fun d => rfl)
        fun _ => propFoW_of_pres fun d => rfl)
      (propFoW_of_pres fun d => rfl)) fun _ => ?_
  exact propFoW_of_pres fun d => rfl

theorem propFoW_response (spi : Spi) : PropFoW (rfid_cr95hf_response spi) := by
  unfold rfid_cr95hf_response
  refine propFoW_bind (propFoW_of_pres fun d => rfl) fun _ => ?_
  refine propFoW_bind (propFoW_transceive _ _) fun _ => ?_
  refine propFoW_bind (propFoW_of_pres fun d => rfl) fun d => ?_
  refine propFoW_bind (propFoW_of_pres fun d => rfl) fun _ => ?_
  exact propFoW_transceive _ _

theorem propFoW_cmdPhase (spi : Spi) (fuel : Nat) (mk : Dev → List Nat) :
    PropFoW (cmdPhase spi fuel mk) := by
  unfold cmdPhase
  refine propFoW_bind (propFoW_of_pres fun d => rfl) fun _ => ?_
  refine propFoW_bind (propFoW_transceive _ _) fun _ => ?_
  refine propFoW_bind (propFoW_wait _ _) fun _ => ?_
  exact propFoW_response _

theorem propFoW_select_mode (spi : Spi) (fuel : Nat) (req : Nat) :
    PropFoW (rfid_cr95hf_select_mode spi fuel req) := by
  unfold rfid_cr95hf_select_mode
  refine propFoW_bind (propFoW_of_pres fun d => rfl) fun d0 => ?_
  refine propFoW_ite (propFoW_of_pres fun d => rfl) ?_
  refine propFoW_ite (propFoW_of_pres fun d => rfl) ?_
  refine propFoW_bind
    (propFoW_ite (propFoW_of_pres fun d => rfl) (propFoW_of_pres fun d => rfl))
    fun _ => ?_
  refine propFoW_bind
    (propFoW_ite
      (propFoW_ite (propFoW_of_pres fun d => rfl)
        (propFoW_bind (propFoW_of_pres fun d => rfl)
          fun _ => propFoW_bind (propFoW_of_pres fun d => rfl)
            fun _ => propFoW_of_pres fun d => rfl))
      (propFoW_of_pres fun d => rfl))
    fun _ => ?_
  refine propFoW_bind (propFoW_of_pres fun d => rfl) fun _ => ?_
  refine propFoW_ite ?_ (propFoW_of_pres fun d => rfl)
  refine propFoW_bind (propFoW_of_pres fun d => rfl) fun _ => ?_
  refine propFoW_bind (propFoW_transceive _ _) fun _ => ?_
  refine propFoW_bind (propFoW_of_pres fun d => rfl) fun _ => ?_
  refine propFoW_bind (propFoW_wait _ _) fun _ => ?_
  refine propFoW_bind (propFoW_response _) fun _ => ?_
  exact propFoW_of_pres fun d => rfl

theorem propFoW_uidLevel3 (spi : Spi) (fuel sak : Nat) :
    PropFoW (uidLevel3 spi fuel sak) := by
  unfold uidLevel3
  refine propFoW_ite ?_ (propFoW_of_pres fun d => rfl)
  refine propFoW_bind (propFoW_cmdPhase _ _ _) fun _ => ?_
  refine propFoW_bind (propFoW_of_pres fun d => rfl) fun _ => ?_
  exact propFoW_cmdPhase _ _ _

theorem parse_cl1_foW (d : Dev) : (parse_cl1 d).foW = d.foW := by
  unfold parse_cl1
  by_cases h : d.rcv 0 = 0x88
  · rw [if_pos h]
  · rw [if_neg h]

theorem parse_cl2_foW (d : Dev) : (parse_cl2 d).foW = d.foW := by
  unfold parse_cl2
  by_cases h : d.rcv 0 = 0x88
  · rw [if_pos h]
  · rw [if_neg h]

theorem propFoW_uidLevel2 (spi : Spi) (fuel sak : Nat) :
    PropFoW (uidLevel2 spi fuel sak) := by
  unfold uidLevel2
  refine propFoW_ite ?_ (propFoW_uidLevel3 _ _ _)
  refine propFoW_bind (propFoW_cmdPhase _ _ _) fun _ => ?_
  refine propFoW_bind (propFoW_of_pres fun d => parse_cl2_foW d) fun _ => ?_
  refine propFoW_bind (propFoW_cmdPhase _ _ _) fun _ => ?_
  refine propFoW_bind (propFoW_of_pres fun d => rfl) fun d => ?_
  exact propFoW_uidLevel3 _ _ _

theorem propFoW_get_uid (spi : Spi) (fuel : Nat) (uidIsNull : Bool) :
    PropFoW (rfid_cr95hf_iso14443A_get_uid spi fuel uidIsNull) := by
  unfold rfid_cr95hf_iso14443A_get_uid
  refine propFoW_bind (propFoW_of_pres fun d => rfl) fun d0 => ?_
  refine propFoW_ite (propFoW_of_pres fun d => rfl) ?_
  refine propFoW_bind (propFoW_cmdPhase _ _ _) fun _ => ?_
  refine propFoW_bind (propFoW_cmdPhase _ _ _) fun _ => ?_
  refine propFoW_bind (propFoW_of_pres fun d => parse_cl1_foW d) fun _ => ?_
  refine propFoW_bind (propFoW_cmdPhase _ _ _) fun _ => ?_
  refine propFoW_bind (propFoW_of_pres fun d => rfl) fun d1 => ?_
  exact propFoW_uidLevel2 _ _ _

theorem propFoW_protocol_select (spi : Spi) (fuel : Nat) (proto : Nat) :
    PropFoW (rfid_cr95hf_protocol_select spi fuel proto) := by
  unfold rfid_cr95hf_protocol_select
  refine propFoW_ite ?_ (propFoW_of_pres fun d => rfl)
  refine propFoW_bind (propFoW_of_pres fun d => rfl) fun _ => ?_
  refine propFoW_bind (propFoW_transceive _ _) fun _ => ?_
  refine propFoW_bind (propFoW_wait _ _) fun _ => ?_
  exact propFoW_response _

theorem propFoW_calibAdjust (step : Nat) (d0 : Dev) : PropFoW (calibAdjust step d0) := by
  unfold calibAdjust
  refine propFoW_ite ?_ (propFoW_ite ?_ (propFoW_of_pres fun d => rfl))
  · exact propFoW_bind (propFoW_of_pres fun d => rfl)
      fun _ => propFoW_of_pres fun d => rfl
  · exact propFoW_bind (propFoW_of_pres fun d => rfl)
      fun _ => propFoW_of_pres fun d => rfl

theorem propFoW_calibStep (spi : Spi) (fuel i : Nat) :
    PropFoW (calibStep spi fuel i) := by
  unfold calibStep
  refine propFoW_bind (propFoW_of_pres fun d => rfl) fun _ => ?_
  refine propFoW_bind (propFoW_transceive _ _) fun _ => ?_
  refine propFoW_bind (propFoW_wait _ _) fun _ => ?_
  refine propFoW_bind (propFoW_response _) fun _ => ?_
  refine propFoW_bind (propFoW_of_pres fun d => rfl) fun d => ?_
  rcases i with _ | _ | _ | _ | _ | _ | _ | _ | i
  · exact propFoW_ite
      (propFoW_bind (propFoW_of_pres fun d => rfl) fun _ => propFoW_of_pres fun d => rfl)
      (propFoW_of_pres fun d => rfl)
  · exact propFoW_ite
      (propFoW_bind (propFoW_of_pres fun d => rfl) fun _ => propFoW_of_pres fun d => rfl)
      (propFoW_of_pres fun d => rfl)
  · exact propFoW_calibAdjust _ _
  · exact propFoW_calibAdjust _ _
  · exact propFoW_calibAdjust _ _
  · exact propFoW_calibAdjust _ _
  · exact propFoW_calibAdjust _ _
  · exact propFoW_ite (propFoW_of_pres fun d => rfl)
      (propFoW_ite (propFoW_of_pres fun d => rfl) (propFoW_of_pres fun d => rfl))
  · exact propFoW_of_pres fun d => rfl

theorem calibLoop_zero (spi : Spi) (fuel : Nat) (i : Nat) :
    calibLoop spi fuel 0 i = mthrow (-5) := rfl

theorem calibLoop_succ (spi : Spi) (fuel n i : Nat) :
    calibLoop spi fuel (n + 1) i =
      (calibStep spi fuel i >>= fun r =>
        match r with
        | some v => pure v
        | none => calibLoop spi fuel n (i + 1)) := rfl

theorem propFoW_calibLoop (spi : Spi) (fuel : Nat) (n : Nat) :
    ∀ i, PropFoW (calibLoop spi fuel n i) := by
  induction n with
  | zero => exact fun i => propFoW_of_pres fun d => rfl
  | succ n ih =>
      intro i
      rw [calibLoop_succ]
      refine propFoW_bind (propFoW_calibStep _ _ _) fun r => ?_
      cases r with
      | some v => exact propFoW_of_pres fun d => rfl
      | none => exact ih (i + 1)

theorem propFoW_calibration (spi : Spi) (fuel : Nat) :
    PropFoW (rfid_cr95hf_calibration spi fuel) := by
  unfold rfid_cr95hf_calibration
  refine propFoW_bind (propFoW_of_pres fun d => rfl) fun _ => ?_
  exact propFoW_calibLoop _ _ _ _

theorem propFoW_surfaces {α : Type} {f : M α} (hp : PropFoW f) :
    ∀ d e, d.foW = none → ((f d).2).foW = some e → (f d).1 = Except.error e := by
  intro d e h0 hw
  rcases hp d h0 with hnone | ⟨e1, hsome, herr⟩
  · rw [hnone] at hw
    cases hw
  · rw [hsome] at hw
    injection hw with he
    rw [herr, he]

/-- Claim C5, amended (corrected): every transport failure that occurs during
`select_mode`, `protocol_select`, `get_uid`, or `calibration` at a bus call
made outside the readiness synchronizer surfaces unchanged as the operation's
error; the readiness wait itself always reports success and charges no
failure to the enclosing operation (its polling errors are discarded, as the
counterexample run exhibits). -/
theorem c5_amended :
    (∀ spi fuel req d e, d.foW = none →
        ((rfid_cr95hf_select_mode spi fuel req d).2).foW = some e →
        (rfid_cr95hf_select_mode spi fuel req d).1 = Except.error e) ∧
    (∀ spi fuel proto d e, d.foW = none →
        ((rfid_cr95hf_protocol_select spi fuel proto d).2).foW = some e →
        (rfid_cr95hf_protocol_select spi fuel proto d).1 = Except.error e) ∧
    (∀ spi fuel uidIsNull d e, d.foW = none →
        ((rfid_cr95hf_iso14443A_get_uid spi fuel uidIsNull d).2).foW = some e →
        (rfid_cr95hf_iso14443A_get_uid spi fuel uidIsNull d).1 = Except.error e) ∧
    (∀ spi fuel d e, d.foW = none →
        ((rfid_cr95hf_calibration spi fuel d).2).foW = some e →
        (rfid_cr95hf_calibration spi fuel d).1 = Except.error e) ∧
    (∀ spi fuel d, (rfid_cr95hf_wait spi fuel d).1 = Except.ok () ∧
        ((rfid_cr95hf_wait spi fuel d).2).foW = d.foW) :=
  ⟨fun spi fuel req => propFoW_surfaces (propFoW_select_mode spi fuel req),
   fun spi fuel proto => propFoW_surfaces (propFoW_protocol_select spi fuel proto),
   fun spi fuel b => propFoW_surfaces (propFoW_get_uid spi fuel b),
   fun spi fuel => propFoW_surfaces (propFoW_calibration spi fuel),
   fun spi fuel d => wait_state spi fuel d⟩

/-- Witness for C5 (amended): a concrete `get_uid` run whose very first bus
call — the REQA send, outside the readiness wait — fails with -7, and the
call returns exactly -7. -/
theorem c5_amended_witness :
    (rfid_cr95hf_iso14443A_get_uid o_allFail 9 false dev0).1 = Except.error (-7) :=
  c5_amended.2.2.1 o_allFail 9 false dev0 (-7) rfl rfl
/-- Claim C7 (confirmed): on a full three-level cascade — cascade tags at
levels 1 and 2, SAK bit 0x04 set after the level-1 and level-2 completes and
clear after level 3 — `get_uid` succeeds with a 10-byte UID: positions 0-2
from the level-1 response bytes 1-3, positions 3-5 from the level-2 response
bytes 1-3, positions 6-9 from the level-3 response bytes 0-3. -/
theorem c7_three_level_cascade
    (a1 a2 a3 a4 s1 b1 b2 b3 b4 s2 c1 c2 c3 c4 c5 s3 : Nat)
    (ha1 : a1 < 256) (ha2 : a2 < 256) (ha3 : a3 < 256) (ha4 : a4 < 256)
    (hb1 : b1 < 256) (hb2 : b2 < 256) (hb3 : b3 < 256) (hb4 : b4 < 256)
    (hc1 : c1 < 256) (hc2 : c2 < 256) (hc3 : c3 < 256) (hc4 : c4 < 256)
    (hc5 : c5 < 256) (hu1 : s1 < 256) (hu2 : s2 < 256) (_hu3 : s3 < 256)
    (hs1 : Nat.land s1 4 ≠ 0) (hs2 : Nat.land s2 4 ≠ 0)
    (_hs3 : Nat.land s3 4 = 0) :
    (rfid_cr95hf_iso14443A_get_uid
        (o_cascade3 a1 a2 a3 a4 s1 b1 b2 b3 b4 s2 c1 c2 c3 c4 c5 s3) 9 false
        dev0).1 = Except.ok () ∧
    ((rfid_cr95hf_iso14443A_get_uid
        (o_cascade3 a1 a2 a3 a4 s1 b1 b2 b3 b4 s2 c1 c2 c3 c4 c5 s3) 9 false
        dev0).2).uid_len = 10 ∧
    ((rfid_cr95hf_iso14443A_get_uid
        (o_cascade3 a1 a2 a3 a4 s1 b1 b2 b3 b4 s2 c1 c2 c3 c4 c5 s3) 9 false
        dev0).2).uid 0 = a1 ∧
    ((rfid_cr95hf_iso14443A_get_uid
        (o_cascade3 a1 a2 a3 a4 s1 b1 b2 b3 b4 s2 c1 c2 c3 c4 c5 s3) 9 false
        dev0).2).uid 1 = a2 ∧
    ((rfid_cr95hf_iso14443A_get_uid
        (o_cascade3 a1 a2 a3 a4 s1 b1 b2 b3 b4 s2 c1 c2 c3 c4 c5 s3) 9 false
        dev0).2).uid 2 = a3 ∧
    ((rfid_cr95hf_iso14443A_get_uid
        (o_cascade3 a1 a2 a3 a4 s1 b1 b2 b3 b4 s2 c1 c2 c3 c4 c5 s3) 9 false
        dev0).2).uid 3 = b1 ∧
    ((rfid_cr95hf_iso14443A_get_uid
        (o_cascade3 a1 a2 a3 a4 s1 b1 b2 b3 b4 s2 c1 c2 c3 c4 c5 s3) 9 false
        dev0).2).uid 4 = b2 ∧
    ((rfid_cr95hf_iso14443A_get_uid
        (o_cascade3 a1 a2 a3 a4 s1 b1 b2 b3 b4 s2 c1 c2 c3 c4 c5 s3) 9 false
        dev0).2).uid 5 = b3 ∧
    ((rfid_cr95hf_iso14443A_get_uid
        (o_cascade3 a1 a2 a3 a4 s1 b1 b2 b3 b4 s2 c1 c2 c3 c4 c5 s3) 9 false
        dev0).2).uid 6 = c1 ∧
    ((rfid_cr95hf_iso14443A_get_uid
        (o_cascade3 a1 a2 a3 a4 s1 b1 b2 b3 b4 s2 c1 c2 c3 c4 c5 s3) 9 false
        dev0).2).uid 7 = c2 ∧
    ((rfid_cr95hf_iso14443A_get_uid
        (o_cascade3 a1 a2 a3 a4 s1 b1 b2 b3 b4 s2 c1 c2 c3 c4 c5 s3) 9 false
        dev0).2).uid 8 = c3 ∧
    ((rfid_cr95hf_iso14443A_get_uid
        (o_cascade3 a1 a2 a3 a4 s1 b1 b2 b3 b4 s2 c1 c2 c3 c4 c5 s3) 9 false
        dev0).2).uid 9 = c4 := by
  simp +decide [rfid_cr95hf_iso14443A_get_uid, uidLevel2, uidLevel3, cmdPhase,
    rfid_cr95hf_transceive, rfid_cr95hf_wait, rfid_cr95hf_response, spi_xfer,
    k_sleep, mmod, mget, mthrow, mret, bind_def, pure_def, mbind, storeList,
    upd8, sel_complete, parse_cl1, parse_cl2, parse_cl3, o_cascade3, oracleOf,
    busOk, hdr, pay, dev0, CR95HF_RCV_BUF_SIZE,
    Nat.mod_eq_of_lt ha1, Nat.mod_eq_of_lt ha2, Nat.mod_eq_of_lt ha3,
    Nat.mod_eq_of_lt ha4, Nat.mod_eq_of_lt hb1, Nat.mod_eq_of_lt hb2,
    Nat.mod_eq_of_lt hb3, Nat.mod_eq_of_lt hb4, Nat.mod_eq_of_lt hc1,
    Nat.mod_eq_of_lt hc2, Nat.mod_eq_of_lt hc3, Nat.mod_eq_of_lt hc4,
    Nat.mod_eq_of_lt hc5, Nat.mod_eq_of_lt hu1, Nat.mod_eq_of_lt hu2,
    hs1, hs2, List.getD, List.get?, List.length, if_true, if_false,
    ite_true, ite_false, Option.getD]

/-- Witness for C7 at concrete response bytes. -/
theorem c7_witness :
    (rfid_cr95hf_iso14443A_get_uid
        (o_cascade3 0x11 0x22 0x33 0x44 0x04 0x55 0x66 0x77 0x16 0x04 0xA1
          0xA2 0xA3 0xA4 0xA5 0x00) 9 false dev0).1 = Except.ok () ∧
    ((rfid_cr95hf_iso14443A_get_uid
        (o_cascade3 0x11 0x22 0x33 0x44 0x04 0x55 0x66 0x77 0x16 0x04 0xA1
          0xA2 0xA3 0xA4 0xA5 0x00) 9 false dev0).2).uid_len = 10 ∧
    ((rfid_cr95hf_iso14443A_get_uid
        (o_cascade3 0x11 0x22 0x33 0x44 0x04 0x55 0x66 0x77 0x16 0x04 0xA1
          0xA2 0xA3 0xA4 0xA5 0x00) 9 false dev0).2).uid 0 = 0x11 ∧
    ((rfid_cr95hf_iso14443A_get_uid
        (o_cascade3 0x11 0x22 0x33 0x44 0x04 0x55 0x66 0x77 0x16 0x04 0xA1
          0xA2 0xA3 0xA4 0xA5 0x00) 9 false dev0).2).uid 1 = 0x22 ∧
    ((rfid_cr95hf_iso14443A_get_uid
        (o_cascade3 0x11 0x22 0x33 0x44 0x04 0x55 0x66 0x77 0x16 0x04 0xA1
          0xA2 0xA3 0xA4 0xA5 0x00) 9 false dev0).2).uid 2 = 0x33 ∧
    ((rfid_cr95hf_iso14443A_get_uid
        (o_cascade3 0x11 0x22 0x33 0x44 0x04 0x55 0x66 0x77 0x16 0x04 0xA1
          0xA2 0xA3 0xA4 0xA5 0x00) 9 false dev0).2).uid 3 = 0x55 ∧
    ((rfid_cr95hf_iso14443A_get_uid
        (o_cascade3 0x11 0x22 0x33 0x44 0x04 0x55 0x66 0x77 0x16 0x04 0xA1
          0xA2 0xA3 0xA4 0xA5 0x00) 9 false dev0).2).uid 4 = 0x66 ∧
    ((rfid_cr95hf_iso14443A_get_uid
        (o_cascade3 0x11 0x22 0x33 0x44 0x04 0x55 0x66 0x77 0x16 0x04 0xA1
          0xA2 0xA3 0xA4 0xA5 0x00) 9 false dev0).2).uid 5 = 0x77 ∧
    ((rfid_cr95hf_iso14443A_get_uid
        (o_cascade3 0x11 0x22 0x33 0x44 0x04 0x55 0x66 0x77 0x16 0x04 0xA1
          0xA2 0xA3 0xA4 0xA5 0x00) 9 false dev0).2).uid 6 = 0xA1 ∧
    ((rfid_cr95hf_iso14443A_get_uid
        (o_cascade3 0x11 0x22 0x33 0x44 0x04 0x55 0x66 0x77 0x16 0x04 0xA1
          0xA2 0xA3 0xA4 0xA5 0x00) 9 false dev0).2).uid 7 = 0xA2 ∧
    ((rfid_cr95hf_iso14443A_get_uid
        (o_cascade3 0x11 0x22 0x33 0x44 0x04 0x55 0x66 0x77 0x16 0x04 0xA1
          0xA2 0xA3 0xA4 0xA5 0x00) 9 false dev0).2).uid 8 = 0xA3 ∧
    ((rfid_cr95hf_iso14443A_get_uid
        (o_cascade3 0x11 0x22 0x33 0x44 0x04 0x55 0x66 0x77 0x16 0x04 0xA1
          0xA2 0xA3 0xA4 0xA5 0x00) 9 false dev0).2).uid 9 = 0xA4 :=
  c7_three_level_cascade 0x11 0x22 0x33 0x44 0x04 0x55 0x66 0x77 0x16 0x04
    0xA1 0xA2 0xA3 0xA4 0xA5 0x00
    (by decide) (by decide) (by decide) (by decide) (by decide) (by decide)
    (by decide) (by decide) (by decide) (by decide) (by decide) (by decide)
    (by decide) (by decide) (by decide) (by decide) (by decide) (by decide)
    (by decide)
